import Mathlib

/-!
Verification of the automation trigger-and-execution subsystem of the
vibe-crm backend (`app/services/automation_executor.py` and
`app/api/automations.py`), via a shallow embedding in Lean 4.

Python dictionaries holding JSON scalars are modelled as association
lists over an inductive value type `Val`; Python truthiness, equality
and string conversion are modelled explicitly.
-/

namespace VibeCRM

/-- A scalar value as it appears in record data and rule configuration
(JSON scalars: null, booleans, integers, strings). -/
inductive Val where
  | vNull
  | vBool (b : Bool)
  | vInt (n : Int)
  | vStr (s : String)
deriving DecidableEq, Repr

/-- Decidable equality for `Except`, used to evaluate concrete
executor outcomes. -/
instance exceptDecEq {ε α : Type} [DecidableEq ε] [DecidableEq α] :
    DecidableEq (Except ε α) := fun x y =>
  match x, y with
  | .ok a, .ok b =>
    if h : a = b then .isTrue (by rw [h])
    else .isFalse (by intro hc; cases hc; exact h rfl)
  | .error e, .error f =>
    if h : e = f then .isTrue (by rw [h])
    else .isFalse (by intro hc; cases hc; exact h rfl)
  | .ok _, .error _ => .isFalse (by intro hc; cases hc)
  | .error _, .ok _ => .isFalse (by intro hc; cases hc)

/-- Numeric view used by Python equality: booleans compare equal to
their integer values (True == 1). -/
def Val.numView : Val → Option Int
  | .vBool b => some (if b then 1 else 0)
  | .vInt n => some n
  | _ => none

/-- Python `==` on scalar values. -/
def pyEq (a b : Val) : Bool :=
  match a.numView, b.numView with
  | some m, some n => m == n
  | _, _ =>
    match a, b with
    | .vStr s, .vStr t => s == t
    | .vNull, .vNull => true
    | _, _ => false

/-- Python truthiness of a scalar value. -/
def pyTruthy : Val → Bool
  | .vNull => false
  | .vBool b => b
  | .vInt n => n != 0
  | .vStr s => s != ""

/-- Python `str(...)` on a scalar value. -/
def pyStr : Val → String
  | .vNull => "None"
  | .vBool true => "True"
  | .vBool false => "False"
  | .vInt n => toString n
  | .vStr s => s

/-- A Python dictionary (string-or-scalar keyed), modelled as an
association list; lookup finds the first key equal under `pyEq`. -/
abbrev Dict := List (Val × Val)

/-- Dictionary lookup (`d[k]` presence check / `d.get(k)` without default). -/
def dget : Dict → Val → Option Val
  | [], _ => none
  | (k', v) :: d, k => if pyEq k' k then some v else dget d k

/-- Python `d.get(k)`: `None` when the key is missing. -/
def pyDictGet (d : Dict) (k : Val) : Val := (dget d k).getD .vNull

/-- Python `d.get(k, dflt)`. -/
def pyGetDef (d : Dict) (k : Val) (dflt : Val) : Val := (dget d k).getD dflt

/-- Python `{**d, k: v}` (as far as lookups are concerned). -/
def dictSet (d : Dict) (k v : Val) : Dict := (k, v) :: d

/-- Removing a key from a dictionary. -/
def dictErase (d : Dict) (k : Val) : Dict :=
  d.filter (fun kv => !(pyEq kv.1 k))

/-- Python truthiness of an `Optional[Dict]`: `None` and the empty
dictionary are falsy. -/
def pyTruthyD : Option Dict → Bool
  | none => false
  | some d => !d.isEmpty

/-- A row of the `records` table as the executor sees it: identity,
creation timestamp and the open `data` payload. -/
structure Record where
  id : Val
  created_at : Val
  data : Dict
deriving DecidableEq, Repr

/-! ## Template substitution (`AutomationExecutor._replace_template_variables`) -/

/-- Python whitespace characters recognised by `str.strip()`. -/
def isPySpace (c : Char) : Bool :=
  c == ' ' || c == '\t' || c == '\n' || c == '\r' || c == '\x0b' || c == '\x0c'

/-- Python `str.strip()`. -/
def pyStrip (s : String) : String :=
  String.mk (((s.toList.dropWhile isPySpace).reverse.dropWhile isPySpace).reverse)

/-- The lookup dictionary `all_data = \x7b**record_data, "id": ..., "created_at": ...\x7d`:
the payload spread first, then overwritten by the two synthetic keys
(modelled by prepending the synthetic keys, since lookup takes the
first match). -/
def allData (record : Record) : Dict :=
  (.vStr "created_at", record.created_at) :: (.vStr "id", record.id) :: record.data

/-- The regex replacement callback `replace_var`: strip the captured
identifier, look it up with default `""`, and render `None` as `""`. -/
def replaceVar (record : Record) (raw : List Char) : List Char :=
  match dget (allData record) (.vStr (pyStrip (String.mk raw))) with
  | none => []
  | some .vNull => []
  | some v => (pyStr v).toList

/-- Attempt to match the tail of a `\x7b\x7b` opener against `[^\x7d]+\x7d\x7d`:
returns the captured body and the remainder after the closing braces. -/
def braceSplit (l : List Char) : Option (List Char × List Char) :=
  let body := l.takeWhile (fun d => !(d == '\x7d'))
  match l.dropWhile (fun d => !(d == '\x7d')) with
  | '\x7d' :: '\x7d' :: rest2 => if body.isEmpty then none else some (body, rest2)
  | _ => none

/-- The scan of `re.sub` with pattern `\x7b\x7b([^\x7d]+)\x7d\x7d`: at each position,
substitute a match when one starts there, else emit one character and
move on.  Structural recursion on a fuel argument; any fuel above the
length of the input gives the real result. -/
def substGo (record : Record) : Nat → List Char → List Char
  | 0, l => l
  | _+1, [] => []
  | fuel+1, c :: cs =>
    if c == '\x7b' && cs.head? == some '\x7b' then
      match braceSplit cs.tail with
      | some (body, rest2) => replaceVar record body ++ substGo record fuel rest2
      | none => c :: substGo record fuel cs
    else c :: substGo record fuel cs

/-- `re.sub` on a character list (with always-sufficient fuel). -/
def pySubst (record : Record) (l : List Char) : List Char :=
  substGo record (l.length + 1) l

/-- `AutomationExecutor._replace_template_variables`: the empty (falsy)
template short-circuits to `""`; otherwise every `\x7b\x7bidentifier\x7d\x7d` token
is substituted. -/
def replace_template_variables (template : String) (record : Record) : String :=
  if template = "" then "" else String.mk (pySubst record template.toList)

/-- Whether a character list contains two adjacent opening braces,
i.e. whether the template contains any `\x7b\x7b` syntax at all. -/
def hasDoubleOpen : List Char → Bool
  | [] => false
  | [_] => false
  | c :: c2 :: cs => (c == '\x7b' && c2 == '\x7b') || hasDoubleOpen (c2 :: cs)

/-- Rendering of an arbitrary config value passed where the code expects
a template string: a falsy value short-circuits to `""` (the
`if not template` guard), a truthy string is rendered, and a truthy
non-string makes `re.sub` raise a `TypeError`. -/
def renderVal (v : Val) (record : Record) : Except String String :=
  if pyTruthy v = false then .ok ""
  else match v with
    | .vStr s => .ok (replace_template_variables s record)
    | _ => .error "expected string or bytes-like object"

/-! ## Condition evaluator (`check_trigger_conditions`) -/

/-- `old_data.get("status") if old_data else None` (dictionary
truthiness: `None` and the empty dictionary both yield `None`). -/
def oldStatusOf (old_data : Option Dict) : Val :=
  match old_data with
  | none => .vNull
  | some od => if od.isEmpty then .vNull else pyDictGet od (.vStr "status")

/-- `check_trigger_conditions` from `automation_executor.py`. -/
def check_trigger_conditions (trigger_config : Dict) (record : Record)
    (old_data : Option Dict) (trigger_type : String) : Bool :=
  let record_data := record.data
  if trigger_type = "status_changed" then
    let to_status := pyDictGet trigger_config (.vStr "to_status")
    let from_status := pyDictGet trigger_config (.vStr "from_status")
    let current_status := pyDictGet record_data (.vStr "status")
    let old_status := oldStatusOf old_data
    if pyTruthy to_status && !(pyEq current_status to_status) then false
    else if pyTruthy from_status && !(pyEq old_status from_status) then false
    else if pyEq old_status current_status then false
    else true
  else if trigger_type = "field_updated" then
    let field_name := pyDictGet trigger_config (.vStr "field_name")
    if !(pyTruthy field_name) then true
    else if !(pyTruthyD old_data) then false
    else
      let old_value := pyDictGet (old_data.getD []) field_name
      let new_value := pyDictGet record_data field_name
      !(pyEq old_value new_value)
  else if trigger_type = "record_created" then true
  else if trigger_type = "record_deleted" then true
  else true

/-! ## Action dispatchers (`AutomationExecutor._send_email` and friends) -/

/-- Python `a or b` on values (first truthy operand). -/
def pyOr (a b : Val) : Val := if pyTruthy a then a else b

/-- External world an execution runs against: the response of the one
outbound HTTP call a webhook action makes (or its transport error), and
whether the execution-log insert succeeds. -/
structure ExecEnv where
  httpResp : Except String (Int × String)
  logOk : Bool

/-- A write the executor issues against the record store. -/
inductive StoreWrite where
  | persistRecord (id : Val) (data : Dict)
deriving DecidableEq, Repr

/-- `AutomationExecutor._send_email`: resolve the recipient from the
record data field `email`, falling back to the config key `to_email`
(Python `or`), fail when neither is truthy, then render subject and
body. -/
def sendEmail (config : Dict) (record : Record) : Except String Dict := do
  let recipient := pyOr (pyDictGet record.data (.vStr "email")) (pyDictGet config (.vStr "to_email"))
  if pyTruthy recipient = false then
    .error "No recipient email found"
  else
    let subject ← renderVal (pyGetDef config (.vStr "subject") (.vStr "")) record
    let body ← renderVal (pyGetDef config (.vStr "body") (.vStr "")) record
    .ok [(.vStr "email_sent", .vBool true),
         (.vStr "recipient", recipient),
         (.vStr "subject", .vStr subject),
         (.vStr "body_length", .vInt body.length)]

/-- `config.get("method", "POST").upper()`: a missing key defaults to
POST, a string is uppercased, and a non-string raises. -/
def methodOf : Option Val → Except String String
  | none => .ok "POST"
  | some (.vStr s) => .ok s.toUpper
  | some _ => .error "object has no attribute upper"

/-- `AutomationExecutor._call_webhook`: compute the method (raising on a
non-string), require a truthy URL, restrict the method to
POST/PUT/PATCH, issue the call and raise on a 4xx/5xx status. -/
def callWebhook (env : ExecEnv) (config : Dict) : Except String Dict := do
  let url := pyDictGet config (.vStr "url")
  let method ← methodOf (dget config (.vStr "method"))
  if pyTruthy url = false then
    .error "Webhook URL is required"
  else if method ≠ "POST" && method ≠ "PUT" && method ≠ "PATCH" then
    .error ("Unsupported HTTP method: " ++ method)
  else
    match env.httpResp with
    | .error e => .error e
    | .ok (status, text) =>
      if 400 ≤ status then .error ("HTTP status error: " ++ toString status)
      else
        .ok [(.vStr "webhook_called", .vBool true),
             (.vStr "url", url),
             (.vStr "method", .vStr method),
             (.vStr "status_code", .vInt status),
             (.vStr "response", .vStr (String.mk (text.toList.take 500)))]

/-- The `new_value` an update-field action will store: rendered through
template substitution when it is a string, passed through otherwise. -/
def renderedNewValue (config : Dict) (record : Record) : Val :=
  match pyDictGet config (.vStr "new_value") with
  | .vStr s => .vStr (replace_template_variables s record)
  | v => v

/-- `AutomationExecutor._update_field`: require a truthy `field_name`,
render `new_value` when it is a string, merge the single field into the
existing payload and persist the merge. -/
def updateField (config : Dict) (record : Record) :
    Except String (Dict × List StoreWrite) := do
  let field_name := pyDictGet config (.vStr "field_name")
  if pyTruthy field_name = false then
    .error "Field name is required"
  else
    let new_value := renderedNewValue config record
    let current_data := record.data
    let updated_data := dictSet current_data field_name new_value
    .ok ([(.vStr "field_updated", .vBool true),
          (.vStr "field_name", field_name),
          (.vStr "old_value", pyDictGet current_data field_name),
          (.vStr "new_value", new_value)],
         [.persistRecord record.id updated_data])

/-- `AutomationExecutor._create_task`: render title and description and
emit the (logged-only) task payload. -/
def createTask (config : Dict) (record : Record) : Except String Dict := do
  let title ← renderVal (pyGetDef config (.vStr "title") (.vStr "")) record
  let description ← renderVal (pyGetDef config (.vStr "description") (.vStr "")) record
  .ok [(.vStr "task_created", .vBool true),
       (.vStr "title", .vStr title),
       (.vStr "description", .vStr description)]

/-! ## Rule executor (`AutomationExecutor.execute`) -/

/-- An automation rule as loaded from the `automation_rules` table
(fields the executor and dispatcher read). -/
structure AutomationRule where
  id : Val := .vNull
  name : Val := .vNull
  workspace_id : String := ""
  entity_id : String := ""
  trigger_type : String := ""
  trigger_config : Dict := []
  action_type : Val := .vNull
  action_config : Dict := []
  is_active : Bool := true
deriving DecidableEq, Repr

/-- A row inserted into `automation_logs`. -/
structure LogEntry where
  automation_id : Val
  record_id : Val
  status : String
  result : Dict
deriving DecidableEq, Repr

/-- The envelope `execute` returns; optional fields model which keys the
returned Python dictionary contains. -/
structure ExecResult where
  success : Bool
  action_type : Option Val := none
  result : Option Dict := none
  error : Option String := none
deriving DecidableEq, Repr

/-- Everything one `execute` call produces: the returned envelope, the
log row it attempted to insert, whether that insert succeeded, and the
record-store writes the action performed. -/
structure ExecOutcome where
  envelope : ExecResult
  logAttempt : LogEntry
  logWritten : Bool
  writes : List StoreWrite
deriving DecidableEq, Repr

/-- The `action_type` dispatch inside `AutomationExecutor.execute`:
four recognised kinds, anything else raises
`ValueError("Unknown action type: ...")`. -/
def dispatch_action (env : ExecEnv) (action_type : Val) (action_config : Dict)
    (record : Record) : Except String (Dict × List StoreWrite) :=
  if pyEq action_type (.vStr "send_email") then
    (sendEmail action_config record).map (fun r => (r, []))
  else if pyEq action_type (.vStr "webhook") then
    (callWebhook env action_config).map (fun r => (r, []))
  else if pyEq action_type (.vStr "update_field") then
    updateField action_config record
  else if pyEq action_type (.vStr "create_task") then
    (createTask action_config record).map (fun r => (r, []))
  else
    .error ("Unknown action type: " ++ pyStr action_type)

/-- `AutomationExecutor.execute`: run the dispatched action inside a
catch-all; log success or error (the log insert itself swallows its own
failures) and return the corresponding envelope. -/
def execute (env : ExecEnv) (rule : AutomationRule) (record : Record) :
    ExecOutcome :=
  match dispatch_action env rule.action_type rule.action_config record with
  | .ok (result, ws) =>
    { envelope := { success := true, action_type := some rule.action_type,
                    result := some result },
      logAttempt := { automation_id := rule.id, record_id := record.id,
                      status := "success", result := result },
      logWritten := env.logOk,
      writes := ws }
  | .error e =>
    { envelope := { success := false, error := some e },
      logAttempt := { automation_id := rule.id, record_id := record.id,
                      status := "error", result := [(.vStr "error", .vStr e)] },
      logWritten := env.logOk,
      writes := [] }

/-! ## Trigger dispatcher (`trigger_automations`) -/

/-- The filter the rule-store query applies:
`workspace_id`, `entity_id`, `trigger_type` equal and `is_active` true. -/
def matchesQuery (r : AutomationRule) (w e t : String) : Bool :=
  r.workspace_id == w && r.entity_id == e && r.trigger_type == t && r.is_active

/-- The rule-store query `list_active_rules` over a table of rule rows. -/
def loadRules (table : List AutomationRule) (w e t : String) : List AutomationRule :=
  table.filter (fun r => matchesQuery r w e t)

/-- `trigger_automations`: a failed rule-list load propagates; an empty
rule list returns `[]` immediately; otherwise the for-loop appends one
envelope per rule whose conditions match. -/
def trigger_automations (loadResult : Except String (List AutomationRule))
    (env : ExecEnv) (trigger_type : String) (record : Record)
    (old_data : Option Dict) : Except String (List ExecResult) :=
  match loadResult with
  | .error e => .error e
  | .ok automations =>
    if automations.isEmpty then .ok []
    else .ok (automations.foldl
      (fun results automation =>
        if check_trigger_conditions automation.trigger_config record old_data trigger_type
        then results ++ [(execute env automation record).envelope]
        else results)
      [])

/-! ## Automation rules API (`app/api/automations.py`) -/

/-- The pydantic `TriggerConfig` request model. -/
structure TriggerConfig where
  from_status : Option String := none
  to_status : Option String := none
  field_name : Option String := none
deriving DecidableEq, Repr

/-- `TriggerConfig.dict(exclude_none=True)`. -/
def TriggerConfig.toDict (c : TriggerConfig) : Dict :=
  (match c.from_status with | some s => [((Val.vStr "from_status"), Val.vStr s)] | none => []) ++
  (match c.to_status with | some s => [((Val.vStr "to_status"), Val.vStr s)] | none => []) ++
  (match c.field_name with | some s => [((Val.vStr "field_name"), Val.vStr s)] | none => [])

/-- The pydantic `ActionConfig` request model (note the `method` field
defaults to `"POST"` rather than to `None`). -/
structure ActionConfig where
  subject : Option String := none
  body : Option String := none
  to_email : Option String := none
  url : Option String := none
  method : Option String := some "POST"
  field_name : Option String := none
  new_value : Option String := none
  title : Option String := none
  description : Option String := none
deriving DecidableEq, Repr

/-- `ActionConfig.dict(exclude_none=True)`. -/
def ActionConfig.toDict (c : ActionConfig) : Dict :=
  (match c.subject with | some s => [((Val.vStr "subject"), Val.vStr s)] | none => []) ++
  (match c.body with | some s => [((Val.vStr "body"), Val.vStr s)] | none => []) ++
  (match c.to_email with | some s => [((Val.vStr "to_email"), Val.vStr s)] | none => []) ++
  (match c.url with | some s => [((Val.vStr "url"), Val.vStr s)] | none => []) ++
  (match c.method with | some s => [((Val.vStr "method"), Val.vStr s)] | none => []) ++
  (match c.field_name with | some s => [((Val.vStr "field_name"), Val.vStr s)] | none => []) ++
  (match c.new_value with | some s => [((Val.vStr "new_value"), Val.vStr s)] | none => []) ++
  (match c.title with | some s => [((Val.vStr "title"), Val.vStr s)] | none => []) ++
  (match c.description with | some s => [((Val.vStr "description"), Val.vStr s)] | none => [])

/-- Python truthiness of an `Optional[str]` field. -/
def truthyOpt : Option String → Bool
  | none => false
  | some s => s != ""

/-- `_validate_action_config` from `automations.py`: the required-field
checks run per `action_type`, raising a 400 error on a violation. -/
def validate_action_config (action_type : String) (config : ActionConfig) :
    Except String Unit :=
  if action_type = "send_email" then
    if !(truthyOpt config.subject) || !(truthyOpt config.body) then
      .error "Email action requires subject and body"
    else .ok ()
  else if action_type = "webhook" then
    if !(truthyOpt config.url) then .error "Webhook action requires URL"
    else if config.method ≠ some "POST" && config.method ≠ some "PUT"
        && config.method ≠ some "PATCH" then
      .error "Invalid HTTP method"
    else .ok ()
  else if action_type = "update_field" then
    if !(truthyOpt config.field_name) then
      .error "Update field action requires field_name"
    else .ok ()
  else if action_type = "create_task" then
    if !(truthyOpt config.title) then .error "Create task action requires title"
    else .ok ()
  else .ok ()

/-- The `CreateAutomationRequest` body (its pattern-validated fields). -/
structure CreateAutomationRequest where
  name : String
  entity_id : String
  trigger_type : String
  trigger_config : TriggerConfig := {}
  action_type : String
  action_config : ActionConfig := {}
  is_active : Bool := true
deriving DecidableEq, Repr

/-- The `UpdateAutomationRequest` body. -/
structure UpdateAutomationRequest where
  name : Option String := none
  is_active : Option Bool := none
  trigger_config : Option TriggerConfig := none
  action_config : Option ActionConfig := none
deriving DecidableEq, Repr

/-- A persisted `automation_rules` row as the API reads and writes it. -/
structure StoredRule where
  workspace_id : String
  entity_id : String
  name : String
  trigger_type : String
  trigger_config : Dict
  action_type : String
  action_config : Dict
  is_active : Bool
deriving DecidableEq, Repr

/-- `create_automation`: verify the target entity, validate the action
config against the action type, then insert the row. -/
def create_automation (entityExists : Bool) (workspace_id : String)
    (req : CreateAutomationRequest) : Except String StoredRule :=
  if !entityExists then .error "Entity not found in workspace"
  else
    match validate_action_config req.action_type req.action_config with
    | .error e => .error e
    | .ok _ =>
      .ok { workspace_id := workspace_id, entity_id := req.entity_id,
            name := req.name, trigger_type := req.trigger_type,
            trigger_config := req.trigger_config.toDict,
            action_type := req.action_type,
            action_config := req.action_config.toDict,
            is_active := req.is_active }

/-- `update_automation`: build `update_data` from the provided fields
(rejecting an empty update) and persist it; no validation of the new
`action_config` is performed. -/
def update_automation (stored : StoredRule) (req : UpdateAutomationRequest) :
    Except String StoredRule :=
  if req.name = none && req.is_active = none && req.trigger_config = none
      && req.action_config = none then
    .error "No fields to update"
  else
    .ok { stored with
          name := req.name.getD stored.name,
          is_active := req.is_active.getD stored.is_active,
          trigger_config := (req.trigger_config.map TriggerConfig.toDict).getD stored.trigger_config,
          action_config := (req.action_config.map ActionConfig.toDict).getD stored.action_config }

/-- Modelled from the spec: the required-field contract of section 7 /
section 4.3 on a persisted `action_config` payload (send-notification
needs `subject` and `body`; call-webhook needs `url` and a method among
POST/PUT/PATCH; update-field needs `field_name`; create-task needs
`title`).  Stated on the stored dictionary so the invariant can be
checked after any persistence operation. -/
def requiredFieldContract (action_type : String) (cfg : Dict) : Bool :=
  if action_type = "send_email" then
    pyTruthy (pyDictGet cfg (.vStr "subject")) && pyTruthy (pyDictGet cfg (.vStr "body"))
  else if action_type = "webhook" then
    pyTruthy (pyDictGet cfg (.vStr "url")) &&
      (let m := dget cfg (.vStr "method")
       m = some (.vStr "POST") || m = some (.vStr "PUT") || m = some (.vStr "PATCH"))
  else if action_type = "update_field" then
    pyTruthy (pyDictGet cfg (.vStr "field_name"))
  else if action_type = "create_task" then
    pyTruthy (pyDictGet cfg (.vStr "title"))
  else true

/-! ## Helper lemmas -/

theorem pyEq_refl (v : Val) : pyEq v v = true := by
  cases v <;> simp [pyEq, Val.numView]

theorem renderVal_str (s : String) (record : Record) :
    renderVal (.vStr s) record = .ok (replace_template_variables s record) := by
  by_cases h : s = ""
  · subst h; simp [renderVal, pyTruthy, replace_template_variables]
  · simp [renderVal, pyTruthy, h]

theorem braceSplit_some {l body rest2 : List Char}
    (h : braceSplit l = some (body, rest2)) :
    l = body ++ '\x7d' :: '\x7d' :: rest2 ∧ body ≠ [] ∧ ∀ c ∈ body, c ≠ '\x7d' := by
  unfold braceSplit at h
  set p : Char → Bool := fun d => !(d == '\x7d') with hp
  rcases hdw : l.dropWhile p with _ | ⟨d, _ | ⟨d2, rest⟩⟩ <;> rw [hdw] at h <;>
    simp only at h
  · cases h
  · cases h
  · by_cases hd : d = '\x7d'
    · by_cases hd2 : d2 = '\x7d'
      · subst hd; subst hd2
        simp only at h
        by_cases hemp : (l.takeWhile p).isEmpty
        · simp [hemp] at h
        · simp only [hemp, Bool.false_eq_true, if_false, Option.some.injEq,
            Prod.mk.injEq] at h
          obtain ⟨hb, hr⟩ := h
          subst hb; subst hr
          refine ⟨?_, ?_, ?_⟩
          · conv_lhs => rw [← List.takeWhile_append_dropWhile p l]
            rw [hdw]
          · intro hnil; rw [hnil] at hemp; simp at hemp
          · intro c hc
            have := List.mem_takeWhile_imp hc
            simpa [hp] using this
      · simp [hd2] at h
    · simp [hd] at h

theorem braceSplit_build {body : List Char} (rest2 : List Char)
    (hne : body ≠ []) (hnb : ∀ c ∈ body, c ≠ '\x7d') :
    braceSplit (body ++ '\x7d' :: '\x7d' :: rest2) = some (body, rest2) := by
  unfold braceSplit
  have hpos : ∀ c ∈ body, (fun d => !(d == '\x7d')) c = true := by
    intro c hc; simpa using hnb c hc
  rw [List.dropWhile_append_of_pos hpos, List.takeWhile_append_of_pos hpos]
  simp [List.isEmpty_iff, hne]

theorem substGo_congr (r : Record) :
    ∀ (f₁ : Nat) (l : List Char) (f₂ : Nat),
      l.length < f₁ → l.length < f₂ → substGo r f₁ l = substGo r f₂ l := by
  intro f₁
  induction f₁ with
  | zero => intro l f₂ h₁ _; omega
  | succ f ih =>
    intro l f₂ h₁ h₂
    match l, f₂ with
    | [], 0 => simp at h₂
    | [], f₂ + 1 => rfl
    | c :: cs, 0 => simp at h₂
    | c :: cs, f₂ + 1 =>
      simp only [List.length_cons] at h₁ h₂
      show substGo r (f + 1) (c :: cs) = substGo r (f₂ + 1) (c :: cs)
      simp only [substGo]
      by_cases hc : (c == '\x7b' && cs.head? == some '\x7b') = true
      · rw [if_pos hc, if_pos hc]
        rcases hbs : braceSplit cs.tail with _ | ⟨body, rest2⟩ <;> dsimp only
        · rw [ih cs f₂ (by omega) (by omega)]
        · have hlen : rest2.length < cs.length := by
            obtain ⟨heq, -, -⟩ := braceSplit_some hbs
            have h3 := congrArg List.length heq
            simp only [List.length_append, List.length_cons] at h3
            have htail : cs.tail.length ≤ cs.length := by cases cs <;> simp
            omega
          rw [ih rest2 f₂ (by omega) (by omega)]
      · rw [if_neg hc, if_neg hc, ih cs f₂ (by omega) (by omega)]

theorem substGo_eq_pySubst (r : Record) (fuel : Nat) (l : List Char)
    (h : l.length < fuel) : substGo r fuel l = pySubst r l :=
  substGo_congr r fuel l (l.length + 1) h (Nat.lt_succ_self _)

theorem pySubst_nil (r : Record) : pySubst r [] = [] := rfl

theorem pySubst_cons_no_open (r : Record) (c : Char) (cs : List Char)
    (h : (c == '\x7b' && cs.head? == some '\x7b') = false) :
    pySubst r (c :: cs) = c :: pySubst r cs := by
  show substGo r ((c :: cs).length + 1) (c :: cs) = _
  simp only [List.length_cons]
  show substGo r (cs.length + 1 + 1) (c :: cs) = _
  simp only [substGo, h, Bool.false_eq_true, if_false]
  rfl

theorem pySubst_token (r : Record) (body rest : List Char)
    (hne : body ≠ []) (hnb : ∀ c ∈ body, c ≠ '\x7d') :
    pySubst r ('\x7b' :: '\x7b' :: (body ++ '\x7d' :: '\x7d' :: rest)) =
      replaceVar r body ++ pySubst r rest := by
  show substGo r (('\x7b' :: '\x7b' :: (body ++ '\x7d' :: '\x7d' :: rest)).length + 1) _ = _
  simp only [List.length_cons]
  show substGo r (('\x7b' :: (body ++ '\x7d' :: '\x7d' :: rest)).length + 1 + 1) _ = _
  rw [substGo]
  simp only [List.head?_cons, List.tail_cons, beq_self_eq_true, Option.some.injEq,
    Bool.and_self, if_true]
  rw [braceSplit_build rest hne hnb]
  dsimp only
  rw [substGo_eq_pySubst]
  simp [List.length_append]
  omega

theorem pySubst_append_pre (r : Record) (pre l : List Char)
    (h : ∀ c ∈ pre, c ≠ '\x7b') :
    pySubst r (pre ++ l) = pre ++ pySubst r l := by
  induction pre with
  | nil => rfl
  | cons c pre ih =>
    have hc : (c == '\x7b' && ((pre ++ l).head? == some '\x7b')) = false := by
      have : c ≠ '\x7b' := h c (by simp)
      simp [this]
    rw [List.cons_append, pySubst_cons_no_open r c (pre ++ l) hc,
      ih (fun d hd => h d (by simp [hd]))]
    rfl

theorem hasDoubleOpen_cons_false {c : Char} {cs : List Char}
    (h : hasDoubleOpen (c :: cs) = false) :
    hasDoubleOpen cs = false ∧ (c == '\x7b' && cs.head? == some '\x7b') = false := by
  cases cs with
  | nil => simpa using h
  | cons c2 cs' =>
    rw [hasDoubleOpen] at h
    simp only [Bool.or_eq_false_iff] at h
    exact ⟨h.2, by simp only [List.head?_cons]; simpa using h.1⟩

theorem pySubst_no_open (r : Record) (l : List Char)
    (h : hasDoubleOpen l = false) : pySubst r l = l := by
  induction l with
  | nil => rfl
  | cons c cs ih =>
    obtain ⟨h1, h2⟩ := hasDoubleOpen_cons_false h
    rw [pySubst_cons_no_open r c cs h2, ih h1]

/-! ## Claim C1 -/

/-- Claim C1, counterexample: a status trigger with `to_status = "won"`
and absent `old_data` fires when the record's status is `"won"` (the
code treats the missing old status as `None`, and `None != "won"`
counts as a change), so the claim that an absent `old_data` means the
trigger does not fire is false on the code. -/
theorem C1_status_counterexample :
    check_trigger_conditions [((Val.vStr "to_status"), Val.vStr "won")]
      { id := .vNull, created_at := .vNull,
        data := [((Val.vStr "status"), Val.vStr "won")] }
      none "status_changed" = true ∧
    check_trigger_conditions []
      { id := .vNull, created_at := .vNull,
        data := [((Val.vStr "status"), Val.vStr "won")] }
      none "status_changed" = true := by
  exact ⟨rfl, rfl⟩

/-- Claim C1 as amended: a status-change trigger fires iff the
effective old status (which is `None` whenever `old_data` is absent or
empty) differs from the new status, the `to_status` constraint is
absent/falsy or matched by the new status, and the `from_status`
constraint is absent/falsy or matched by the old status.  In
particular, with `old_data` absent the trigger can still fire (whenever
the new status differs from `None` and the constraints pass). -/
theorem C1_status_changed_characterization :
    ∀ (cfg : Dict) (record : Record) (old : Option Dict),
      check_trigger_conditions cfg record old "status_changed" = true ↔
        ((pyTruthy (pyDictGet cfg (.vStr "to_status")) = false ∨
            pyEq (pyDictGet record.data (.vStr "status"))
              (pyDictGet cfg (.vStr "to_status")) = true) ∧
         (pyTruthy (pyDictGet cfg (.vStr "from_status")) = false ∨
            pyEq (oldStatusOf old)
              (pyDictGet cfg (.vStr "from_status")) = true) ∧
         pyEq (oldStatusOf old) (pyDictGet record.data (.vStr "status")) = false) := by
  intro cfg record old
  cases hA : pyTruthy (pyDictGet cfg (.vStr "to_status")) <;>
    cases hB : pyEq (pyDictGet record.data (.vStr "status")) (pyDictGet cfg (.vStr "to_status")) <;>
    cases hC : pyTruthy (pyDictGet cfg (.vStr "from_status")) <;>
    cases hD : pyEq (oldStatusOf old) (pyDictGet cfg (.vStr "from_status")) <;>
    cases hE : pyEq (oldStatusOf old) (pyDictGet record.data (.vStr "status")) <;>
    simp [check_trigger_conditions, hA, hB, hC, hD, hE]

/-! ## Claim C6 -/

/-- Claim C6, counterexample: a field-update trigger on `priority` with
`old_data` present but equal to the empty dictionary, and the field
changed (absent before, `"high"` now), does not fire — the code tests
Python truthiness of `old_data`, not presence, so the claimed iff fails
at a present-but-empty `old_data`. -/
theorem C6_field_updated_counterexample :
    (some ([] : Dict)).isSome = true ∧
    pyEq (pyDictGet ([] : Dict) (.vStr "priority"))
      (pyDictGet [((Val.vStr "priority"), Val.vStr "high")] (.vStr "priority")) = false ∧
    check_trigger_conditions [((Val.vStr "field_name"), Val.vStr "priority")]
      { id := .vNull, created_at := .vNull,
        data := [((Val.vStr "priority"), Val.vStr "high")] }
      (some []) "field_updated" = false := by
  exact ⟨rfl, rfl, rfl⟩

/-- Claim C6 as amended: with a falsy/absent `field_name` the
field-update trigger fires on any update; with a truthy `field_name`
it fires iff `old_data` is present and non-empty (Python-truthy) and
the named field's old and new values differ. -/
theorem C6_field_updated_characterization :
    ∀ (cfg : Dict) (record : Record) (old : Option Dict),
      (pyTruthy (pyDictGet cfg (.vStr "field_name")) = false →
        check_trigger_conditions cfg record old "field_updated" = true) ∧
      (pyTruthy (pyDictGet cfg (.vStr "field_name")) = true →
        (check_trigger_conditions cfg record old "field_updated" = true ↔
          (pyTruthyD old = true ∧
           pyEq (pyDictGet (old.getD []) (pyDictGet cfg (.vStr "field_name")))
             (pyDictGet record.data (pyDictGet cfg (.vStr "field_name"))) = false))) := by
  intro cfg record old
  constructor
  · intro h
    simp [check_trigger_conditions, h]
  · intro h
    cases hD : pyTruthyD old <;>
      cases hV : pyEq (pyDictGet (old.getD []) (pyDictGet cfg (.vStr "field_name")))
        (pyDictGet record.data (pyDictGet cfg (.vStr "field_name"))) <;>
      simp [check_trigger_conditions, h, hD, hV]

/-- Claim C6, witness for the amended characterization at a concrete
changed field. -/
theorem C6_field_updated_witness :
    check_trigger_conditions [((Val.vStr "field_name"), Val.vStr "priority")]
      { id := .vNull, created_at := .vNull,
        data := [((Val.vStr "priority"), Val.vStr "high")] }
      (some [((Val.vStr "priority"), Val.vStr "low")]) "field_updated" = true := by
  have h := (C6_field_updated_characterization
    [((Val.vStr "field_name"), Val.vStr "priority")]
    { id := .vNull, created_at := .vNull,
      data := [((Val.vStr "priority"), Val.vStr "high")] }
    (some [((Val.vStr "priority"), Val.vStr "low")])).2 (by decide)
  exact h.mpr (by decide)

/-! ## Claim C8 -/

/-- Claim C8: `record_created` and `record_deleted` triggers fire
unconditionally regardless of configuration and old data, and any
unknown trigger kind also fires (the permissive fallback). -/
theorem C8_unconditional_triggers :
    ∀ (cfg : Dict) (record : Record) (old : Option Dict),
      check_trigger_conditions cfg record old "record_created" = true ∧
      check_trigger_conditions cfg record old "record_deleted" = true ∧
      (∀ t : String, t ≠ "status_changed" → t ≠ "field_updated" →
        t ≠ "record_created" → t ≠ "record_deleted" →
        check_trigger_conditions cfg record old t = true) := by
  intro cfg record old
  refine ⟨rfl, rfl, ?_⟩
  intro t h1 h2 h3 h4
  simp [check_trigger_conditions, h1, h2, h3, h4]

/-- Claim C8, witness: an unknown trigger kind fires on a concrete
configuration and record. -/
theorem C8_unconditional_witness :
    check_trigger_conditions [((Val.vStr "to_status"), Val.vStr "won")]
      { id := .vNull, created_at := .vNull, data := [] } none "frobnicate" = true := by
  exact (C8_unconditional_triggers [((Val.vStr "to_status"), Val.vStr "won")]
    { id := .vNull, created_at := .vNull, data := [] } none).2.2 "frobnicate"
    (by decide) (by decide) (by decide) (by decide)

/-! ## Claim C10 -/

/-- Claim C10: falsy configuration values behave as absent constraints —
a status trigger whose `to_status` (resp. `from_status`) is the empty
string evaluates exactly like one with the key missing, and a
field-update trigger whose `field_name` is the empty string fires on
every update, including when `old_data` is absent. -/
theorem C10_falsy_config_as_absent :
    ∀ (cfg₁ cfg₂ : Dict) (record : Record) (old : Option Dict),
      (pyDictGet cfg₁ (.vStr "to_status") = .vStr "" →
       dget cfg₂ (.vStr "to_status") = none →
       pyDictGet cfg₁ (.vStr "from_status") = pyDictGet cfg₂ (.vStr "from_status") →
       check_trigger_conditions cfg₁ record old "status_changed" =
         check_trigger_conditions cfg₂ record old "status_changed") ∧
      (pyDictGet cfg₁ (.vStr "from_status") = .vStr "" →
       dget cfg₂ (.vStr "from_status") = none →
       pyDictGet cfg₁ (.vStr "to_status") = pyDictGet cfg₂ (.vStr "to_status") →
       check_trigger_conditions cfg₁ record old "status_changed" =
         check_trigger_conditions cfg₂ record old "status_changed") ∧
      (pyDictGet cfg₁ (.vStr "field_name") = .vStr "" →
       check_trigger_conditions cfg₁ record old "field_updated" = true) := by
  intro cfg₁ cfg₂ record old
  refine ⟨?_, ?_, ?_⟩
  · intro h1 h2 h3
    simp only [check_trigger_conditions, h1, h3]
    simp [pyDictGet, h2, pyTruthy]
  · intro h1 h2 h3
    simp only [check_trigger_conditions, h1, h3]
    simp [pyDictGet, h2, pyTruthy]
  · intro h1
    simp [check_trigger_conditions, h1, pyTruthy]

/-- Claim C10, witness: an empty-string `to_status` on one side and a
missing `to_status` on the other evaluate identically at a concrete
transition, and an empty-string `field_name` fires without old data. -/
theorem C10_falsy_config_witness :
    (check_trigger_conditions [((Val.vStr "to_status"), Val.vStr "")]
       { id := .vNull, created_at := .vNull,
         data := [((Val.vStr "status"), Val.vStr "won")] }
       (some [((Val.vStr "status"), Val.vStr "new")]) "status_changed" =
     check_trigger_conditions []
       { id := .vNull, created_at := .vNull,
         data := [((Val.vStr "status"), Val.vStr "won")] }
       (some [((Val.vStr "status"), Val.vStr "new")]) "status_changed") ∧
    check_trigger_conditions [((Val.vStr "field_name"), Val.vStr "")]
      { id := .vNull, created_at := .vNull,
        data := [((Val.vStr "x"), Val.vStr "1")] } none "field_updated" = true := by
  constructor
  · exact (C10_falsy_config_as_absent [((Val.vStr "to_status"), Val.vStr "")] []
      { id := .vNull, created_at := .vNull,
        data := [((Val.vStr "status"), Val.vStr "won")] }
      (some [((Val.vStr "status"), Val.vStr "new")])).1 (by decide) (by decide) (by decide)
  · exact (C10_falsy_config_as_absent [((Val.vStr "field_name"), Val.vStr "")] []
      { id := .vNull, created_at := .vNull,
        data := [((Val.vStr "x"), Val.vStr "1")] } none).2.2 (by decide)

/-! ## Claim C2 -/

theorem foldl_exec_filter (env : ExecEnv) (t : String) (record : Record)
    (old : Option Dict) :
    ∀ (l : List AutomationRule) (acc : List ExecResult),
      l.foldl (fun results automation =>
          if check_trigger_conditions automation.trigger_config record old t
          then results ++ [(execute env automation record).envelope]
          else results) acc
        = acc ++ (l.filter (fun a =>
              check_trigger_conditions a.trigger_config record old t)).map
            (fun a => (execute env a record).envelope) := by
  intro l
  induction l with
  | nil => intro acc; simp
  | cons a l ih =>
    intro acc
    by_cases h : check_trigger_conditions a.trigger_config record old t = true
    · simp [List.foldl_cons, List.filter_cons, h, ih]
    · simp only [Bool.not_eq_true] at h
      simp [List.foldl_cons, List.filter_cons, h, ih]

/-- Claim C2: the trigger dispatcher propagates only a rule-list load
failure; given a loaded rule list it always returns `.ok` with exactly
one envelope per condition-matching rule, in retrieval order (so an
individual rule failure is reported inside its envelope, never
raised); and when the (workspace, entity, trigger) query yields no
active rule the result is the empty list. -/
theorem C2_dispatch_contract :
    ∀ (env : ExecEnv) (table : List AutomationRule) (w e t : String)
      (record : Record) (old : Option Dict) (msg : String),
      trigger_automations (.error msg) env t record old = .error msg ∧
      (∀ rules : List AutomationRule,
        trigger_automations (.ok rules) env t record old =
          .ok ((rules.filter (fun a =>
              check_trigger_conditions a.trigger_config record old t)).map
            (fun a => (execute env a record).envelope))) ∧
      (loadRules table w e t = [] →
        trigger_automations (.ok (loadRules table w e t)) env t record old = .ok []) := by
  intro env table w e t record old msg
  refine ⟨rfl, ?_, ?_⟩
  · intro rules
    by_cases h : rules.isEmpty
    · rw [List.isEmpty_iff] at h
      subst h
      rfl
    · simp only [trigger_automations, h, Bool.false_eq_true, if_false,
        foldl_exec_filter, List.nil_append]
  · intro h
    rw [h]
    rfl

/-- Claim C2, witness: a one-rule table whose workspace does not match
the queried triple loads no rule, and dispatch returns the empty
list. -/
theorem C2_dispatch_witness :
    loadRules [{ workspace_id := "w2", entity_id := "e1",
                 trigger_type := "record_created" }] "w1" "e1" "record_created" = [] ∧
    trigger_automations
      (.ok (loadRules [{ workspace_id := "w2", entity_id := "e1",
                         trigger_type := "record_created" }] "w1" "e1" "record_created"))
      ⟨.ok (200, "ok"), true⟩ "record_created"
      { id := .vNull, created_at := .vNull, data := [] } none = .ok [] := by
  refine ⟨by decide, ?_⟩
  exact (C2_dispatch_contract ⟨.ok (200, "ok"), true⟩
    [{ workspace_id := "w2", entity_id := "e1", trigger_type := "record_created" }]
    "w1" "e1" "record_created"
    { id := .vNull, created_at := .vNull, data := [] } none "x").2.2 (by decide)

/-! ## Claim C3 -/

/-- Claim C3, counterexample: on a dispatcher error (here an
unrecognized action kind) the returned failure envelope contains no
`action_type` entry — the code returns only `success` and `error` — so
the claimed failure envelope shape with `action_kind` is false on the
code. -/
theorem C3_failure_envelope_counterexample :
    (execute ⟨.ok (200, "ok"), true⟩ { action_type := Val.vStr "bogus" }
      { id := .vNull, created_at := .vNull, data := [] }).envelope =
      { success := false, action_type := none, result := none,
        error := some "Unknown action type: bogus" } := by
  decide

/-- Claim C3 as amended: `execute` never raises; on dispatcher success
it logs a success entry with the action result and returns
`\x7bsuccess=True, action_kind, result\x7d`; on any dispatcher error —
including the hard failure on an unrecognized `action_kind` — it logs
an error entry carrying the error string and returns
`\x7bsuccess=False, error\x7d` (without `action_kind`); and a failure
writing the log entry changes neither the envelope nor the attempted
log row. -/
theorem C3_execute_contract :
    ∀ (env : ExecEnv) (rule : AutomationRule) (record : Record),
      (∀ res ws, dispatch_action env rule.action_type rule.action_config record
          = .ok (res, ws) →
        execute env rule record =
          { envelope := { success := true, action_type := some rule.action_type,
                          result := some res, error := none },
            logAttempt := { automation_id := rule.id, record_id := record.id,
                            status := "success", result := res },
            logWritten := env.logOk, writes := ws }) ∧
      (∀ msg, dispatch_action env rule.action_type rule.action_config record
          = .error msg →
        execute env rule record =
          { envelope := { success := false, action_type := none, result := none,
                          error := some msg },
            logAttempt := { automation_id := rule.id, record_id := record.id,
                            status := "error",
                            result := [((Val.vStr "error"), Val.vStr msg)] },
            logWritten := env.logOk, writes := [] }) ∧
      (pyEq rule.action_type (.vStr "send_email") = false →
       pyEq rule.action_type (.vStr "webhook") = false →
       pyEq rule.action_type (.vStr "update_field") = false →
       pyEq rule.action_type (.vStr "create_task") = false →
        dispatch_action env rule.action_type rule.action_config record =
          .error ("Unknown action type: " ++ pyStr rule.action_type)) ∧
      (∀ b : Bool,
        (execute { env with logOk := b } rule record).envelope =
          (execute env rule record).envelope ∧
        (execute { env with logOk := b } rule record).logAttempt =
          (execute env rule record).logAttempt) := by
  intro env rule record
  refine ⟨?_, ?_, ?_, ?_⟩
  · intro res ws h
    simp [execute, h]
  · intro msg h
    simp [execute, h]
  · intro h1 h2 h3 h4
    simp [dispatch_action, h1, h2, h3, h4]
  · intro b
    have hd : dispatch_action { env with logOk := b } rule.action_type
        rule.action_config record =
        dispatch_action env rule.action_type rule.action_config record := rfl
    cases hr : dispatch_action env rule.action_type rule.action_config record with
    | ok p => simp [execute, hd, hr]
    | error msg => simp [execute, hd, hr]

/-- Claim C3, witness: a concrete create-task rule executes
successfully, producing the success envelope and the success log
entry. -/
theorem C3_execute_witness :
    execute ⟨.ok (200, "ok"), true⟩
      { id := .vStr "a1", action_type := .vStr "create_task",
        action_config := [((Val.vStr "title"), Val.vStr "T")] }
      { id := .vStr "r1", created_at := .vNull, data := [] } =
      { envelope := { success := true, action_type := some (.vStr "create_task"),
                      result := some [((Val.vStr "task_created"), Val.vBool true),
                                      ((Val.vStr "title"), Val.vStr "T"),
                                      ((Val.vStr "description"), Val.vStr "")],
                      error := none },
        logAttempt := { automation_id := .vStr "a1", record_id := .vStr "r1",
                        status := "success",
                        result := [((Val.vStr "task_created"), Val.vBool true),
                                   ((Val.vStr "title"), Val.vStr "T"),
                                   ((Val.vStr "description"), Val.vStr "")] },
        logWritten := true, writes := [] } := by
  exact (C3_execute_contract ⟨.ok (200, "ok"), true⟩
    { id := .vStr "a1", action_type := .vStr "create_task",
      action_config := [((Val.vStr "title"), Val.vStr "T")] }
    { id := .vStr "r1", created_at := .vNull, data := [] }).1
    [((Val.vStr "task_created"), Val.vBool true),
     ((Val.vStr "title"), Val.vStr "T"),
     ((Val.vStr "description"), Val.vStr "")] [] (by decide)

/-! ## Claim C7 -/

/-- Claim C7: with a truthy `field_name` the update-field action
persists exactly the record's existing data merged with the rendered
`new_value` at `field_name` — the merged payload gives the rendered
value at `field_name` and the prior value at every other key — and
with a falsy/missing `field_name` it fails and persists nothing. -/
theorem C7_update_field_frame :
    ∀ (config : Dict) (record : Record),
      (pyTruthy (pyDictGet config (.vStr "field_name")) = false →
        updateField config record = .error "Field name is required") ∧
      (pyTruthy (pyDictGet config (.vStr "field_name")) = true →
        updateField config record =
          .ok ([((Val.vStr "field_updated"), Val.vBool true),
                ((Val.vStr "field_name"), pyDictGet config (.vStr "field_name")),
                ((Val.vStr "old_value"),
                  pyDictGet record.data (pyDictGet config (.vStr "field_name"))),
                ((Val.vStr "new_value"), renderedNewValue config record)],
               [.persistRecord record.id
                  (dictSet record.data (pyDictGet config (.vStr "field_name"))
                    (renderedNewValue config record))]) ∧
        pyDictGet (dictSet record.data (pyDictGet config (.vStr "field_name"))
            (renderedNewValue config record))
          (pyDictGet config (.vStr "field_name")) = renderedNewValue config record ∧
        (∀ k : Val, pyEq (pyDictGet config (.vStr "field_name")) k = false →
          dget (dictSet record.data (pyDictGet config (.vStr "field_name"))
              (renderedNewValue config record)) k = dget record.data k)) := by
  intro config record
  constructor
  · intro h
    simp [updateField, h]
  · intro h
    refine ⟨?_, ?_, ?_⟩
    · simp [updateField, h]
    · simp [dictSet, pyDictGet, dget, pyEq_refl]
    · intro k hk
      simp [dictSet, dget, hk]

/-- Claim C7, witness: updating `status` to `"lost"` on a concrete
record persists the merged payload, keeping the unrelated key. -/
theorem C7_update_field_witness :
    updateField [((Val.vStr "field_name"), Val.vStr "status"),
                 ((Val.vStr "new_value"), Val.vStr "lost")]
      { id := .vStr "r1", created_at := .vNull,
        data := [((Val.vStr "status"), Val.vStr "won"),
                 ((Val.vStr "owner"), Val.vStr "ann")] } =
      .ok ([((Val.vStr "field_updated"), Val.vBool true),
            ((Val.vStr "field_name"), Val.vStr "status"),
            ((Val.vStr "old_value"), Val.vStr "won"),
            ((Val.vStr "new_value"), Val.vStr "lost")],
           [.persistRecord (Val.vStr "r1")
              [((Val.vStr "status"), Val.vStr "lost"),
               ((Val.vStr "status"), Val.vStr "won"),
               ((Val.vStr "owner"), Val.vStr "ann")]]) := by
  have h := ((C7_update_field_frame
    [((Val.vStr "field_name"), Val.vStr "status"),
     ((Val.vStr "new_value"), Val.vStr "lost")]
    { id := .vStr "r1", created_at := .vNull,
      data := [((Val.vStr "status"), Val.vStr "won"),
               ((Val.vStr "owner"), Val.vStr "ann")] }).2 (by decide)).1
  exact h

/-! ## Claim C9 -/

/-- Claim C9: the notification recipient is the record's `email` data
field when truthy, else the config's `to_email`; when neither is
truthy the action fails with the no-recipient error; otherwise (for
string-or-absent subject and body, as the API schema guarantees) the
action succeeds with the rendered subject/body and a result naming the
resolved recipient. -/
theorem C9_send_email_recipient :
    ∀ (config : Dict) (record : Record),
      (pyTruthy (pyDictGet record.data (.vStr "email")) = true →
        pyOr (pyDictGet record.data (.vStr "email"))
            (pyDictGet config (.vStr "to_email")) =
          pyDictGet record.data (.vStr "email")) ∧
      (pyTruthy (pyDictGet record.data (.vStr "email")) = false →
        pyOr (pyDictGet record.data (.vStr "email"))
            (pyDictGet config (.vStr "to_email")) =
          pyDictGet config (.vStr "to_email")) ∧
      (pyTruthy (pyOr (pyDictGet record.data (.vStr "email"))
          (pyDictGet config (.vStr "to_email"))) = false →
        sendEmail config record = .error "No recipient email found") ∧
      (∀ s b : String,
        pyGetDef config (.vStr "subject") (.vStr "") = .vStr s →
        pyGetDef config (.vStr "body") (.vStr "") = .vStr b →
        pyTruthy (pyOr (pyDictGet record.data (.vStr "email"))
            (pyDictGet config (.vStr "to_email"))) = true →
        sendEmail config record =
          .ok [((Val.vStr "email_sent"), Val.vBool true),
               ((Val.vStr "recipient"),
                 pyOr (pyDictGet record.data (.vStr "email"))
                   (pyDictGet config (.vStr "to_email"))),
               ((Val.vStr "subject"),
                 Val.vStr (replace_template_variables s record)),
               ((Val.vStr "body_length"),
                 Val.vInt (replace_template_variables b record).length)]) := by
  intro config record
  refine ⟨?_, ?_, ?_, ?_⟩
  · intro h
    simp [pyOr, h]
  · intro h
    simp [pyOr, h]
  · intro h
    simp [sendEmail, h]
  · intro s b hs hb h
    simp [sendEmail, h, hs, hb, renderVal_str]
    rfl

/-- Claim C9, witness: with no `email` in the record data the recipient
falls back to the config's `to_email` and the action succeeds with a
rendered subject. -/
theorem C9_send_email_witness :
    sendEmail [((Val.vStr "to_email"), Val.vStr "ops@x.io"),
               ((Val.vStr "subject"), Val.vStr "Deal \x7b\x7bname\x7d\x7d"),
               ((Val.vStr "body"), Val.vStr "hi")]
      { id := .vNull, created_at := .vNull,
        data := [((Val.vStr "name"), Val.vStr "Acme")] } =
      .ok [((Val.vStr "email_sent"), Val.vBool true),
           ((Val.vStr "recipient"), Val.vStr "ops@x.io"),
           ((Val.vStr "subject"), Val.vStr "Deal Acme"),
           ((Val.vStr "body_length"), Val.vInt 2)] := by
  have h := (C9_send_email_recipient
    [((Val.vStr "to_email"), Val.vStr "ops@x.io"),
     ((Val.vStr "subject"), Val.vStr "Deal \x7b\x7bname\x7d\x7d"),
     ((Val.vStr "body"), Val.vStr "hi")]
    { id := .vNull, created_at := .vNull,
      data := [((Val.vStr "name"), Val.vStr "Acme")] }).2.2.2
    "Deal \x7b\x7bname\x7d\x7d" "hi" (by decide) (by decide) (by decide)
  rw [h]
  decide

/-! ## Claim C4 -/

/-- Claim C4, failing input: a persisted send-notification rule whose
`action_config` satisfies the required-field contract is updated with
an `action_config` that lacks `subject` and `body`.  `create_automation`
rejects exactly that config, but `update_automation` performs no
validation and persists it, breaking the invariant the claim states —
the code contradicts the spec's persistence invariant. -/
theorem C4_update_bypasses_validation :
    requiredFieldContract "send_email"
      [((Val.vStr "subject"), Val.vStr "s"), ((Val.vStr "body"), Val.vStr "b"),
       ((Val.vStr "method"), Val.vStr "POST")] = true ∧
    create_automation true "w"
      { name := "n", entity_id := "e", trigger_type := "record_created",
        action_type := "send_email",
        action_config := { to_email := some "ops@x.io" } } =
      .error "Email action requires subject and body" ∧
    (update_automation
      { workspace_id := "w", entity_id := "e", name := "n",
        trigger_type := "record_created", trigger_config := [],
        action_type := "send_email",
        action_config := [((Val.vStr "subject"), Val.vStr "s"),
                          ((Val.vStr "body"), Val.vStr "b"),
                          ((Val.vStr "method"), Val.vStr "POST")],
        is_active := true }
      { action_config := some { to_email := some "ops@x.io" } }).map
        (fun r => requiredFieldContract r.action_type r.action_config) =
      .ok false := by
  decide

/-! ## Claim C5 -/

/-- Claim C5: template substitution resolves each `\x7b\x7bidentifier\x7d\x7d`
token against the record's data payload overlaid with the synthetic
keys `id` and `created_at` (which win on collision), substitutes the
empty string for unresolved identifiers, and returns any template
without `\x7b\x7b` syntax unchanged (the embedding is total, so no
template can make it fail); concretely, `"Hello \x7b\x7bfull_name\x7d\x7d"`
renders the payload value and an unresolvable token renders as the
empty string. -/
theorem C5_template_substitution :
    (∀ (record : Record),
      dget (allData record) (.vStr "id") = some record.id ∧
      dget (allData record) (.vStr "created_at") = some record.created_at ∧
      (∀ name : String, name ≠ "id" → name ≠ "created_at" →
        dget (allData record) (.vStr name) = dget record.data (.vStr name)) ∧
      (∀ t : String, hasDoubleOpen t.toList = false →
        replace_template_variables t record = t) ∧
      (∀ pre body rest : List Char, (∀ c ∈ pre, c ≠ '\x7b') → body ≠ [] →
        (∀ c ∈ body, c ≠ '\x7d') →
        pySubst record (pre ++ '\x7b' :: '\x7b' :: (body ++ '\x7d' :: '\x7d' :: rest)) =
          pre ++ replaceVar record body ++ pySubst record rest) ∧
      (∀ raw : List Char,
        dget (allData record) (.vStr (pyStrip (String.mk raw))) = none →
        replaceVar record raw = [])) ∧
    replace_template_variables "Hello \x7b\x7bfull_name\x7d\x7d"
      { id := .vStr "r9", created_at := .vStr "2024-01-01",
        data := [((Val.vStr "full_name"), Val.vStr "Ann")] } = "Hello Ann" ∧
    replace_template_variables "\x7b\x7bmissing\x7d\x7d"
      { id := .vStr "r9", created_at := .vStr "2024-01-01",
        data := [((Val.vStr "full_name"), Val.vStr "Ann")] } = "" := by
  refine ⟨?_, by decide, by decide⟩
  intro record
  refine ⟨rfl, rfl, ?_, ?_, ?_, ?_⟩
  · intro name h1 h2
    simp [allData, dget, pyEq, Val.numView, beq_iff_eq, Ne.symm h1, Ne.symm h2]
  · intro t ht
    by_cases hne : t = ""
    · subst hne; rfl
    · simp only [replace_template_variables, hne, if_false]
      rw [pySubst_no_open record t.toList ht]
      rfl
  · intro pre body rest h1 h2 h3
    rw [pySubst_append_pre record pre _ h1, pySubst_token record body rest h2 h3,
      List.append_assoc]
  · intro raw h
    simp [replaceVar, h]

/-- Claim C5, witness: a template with no brace syntax is returned
unchanged on a concrete record. -/
theorem C5_template_witness :
    hasDoubleOpen "plain text".toList = false ∧
    replace_template_variables "plain text"
      { id := .vNull, created_at := .vNull, data := [] } = "plain text" := by
  refine ⟨by decide, ?_⟩
  exact (C5_template_substitution.1
    { id := .vNull, created_at := .vNull, data := [] }).2.2.2.1 "plain text" (by decide)

end VibeCRM


